import Mathlib

/-!
Verification development for the c2switcher selection engine.

Shallow embedding of the Python sources:
  - `c2switcher/core/models.py` (UsageWindow, UsageSnapshot, Account, Candidate)
  - `c2switcher/constants.py`
  - `c2switcher/core/load_balancing.py` (build_candidate, select_best_candidate,
    needs_refresh)
  - `c2switcher/services/switching.py` (SwitchingService._choose_round_robin)
  - `c2switcher/data/credential_store.py` (is_token_fresh, refresh_access_token,
    write_credentials)
  - `c2switcher/data/store.py` (Store.save_account, Store.get_account_by_identifier,
    in-memory account cache)

Python floats are modelled as exact rationals (the program only ever compares
and combines utilization percentages, hour counts and tuning constants; no claim
here depends on binary rounding).  Epoch-millisecond clock readings are modelled
as integers supplied explicitly.  ISO-8601 reset timestamps are modelled by the
signed number of hours between the timestamp and "now" (`none` for a null or
absent timestamp), which is the only way the code consumes them.
-/

namespace C2Switcher

/-- Runtime errors a modelled Python fragment can raise. -/
inductive PyError where
  | typeError
  | attributeError
  | keyError
  | valueError
  | indexError
  | osError
  | noAccountsAvailable
  | tokenUnavailable
  | invalidCredentials
  deriving DecidableEq, Repr

/-! ## core/models.py -/

/-- Python's two-argument `min` on numbers (returns the first argument on a
tie, which is the same rational either way). -/
def pyMin (a b : ℚ) : ℚ := if a ≤ b then a else b

/-- Python's two-argument `max` on numbers. -/
def pyMax (a b : ℚ) : ℚ := if a ≤ b then b else a

/-- Python's `abs` on numbers. -/
def pyAbs (a : ℚ) : ℚ := if a < 0 then -a else a

/-- `UsageWindow` (models.py).  `utilization` is the optional percentage;
`resets_at` models the optional reset timestamp as the signed hour distance
from now (none = null/absent field). -/
structure UsageWindow where
  utilization : Option ℚ := none
  resets_at : Option ℚ := none
  deriving DecidableEq

/-- `UsageWindow.hours_until_reset` (models.py lines 106-119): a null timestamp
falls back to 168 h; a timestamp in the past yields 0.1 h; otherwise the
distance clamped below by one minute. -/
def UsageWindow.hours_until_reset (w : UsageWindow) : ℚ :=
  match w.resets_at with
  | none => 168
  | some h => if h < 0 then 1/10 else pyMax h (1/60)

/-- `UsageSnapshot` (models.py). -/
structure UsageSnapshot where
  account_uuid : String
  five_hour : UsageWindow
  seven_day : UsageWindow
  seven_day_opus : UsageWindow
  queried_at : String := ""
  cache_source : String := "cache"
  cache_age_seconds : ℚ := 0
  deriving DecidableEq

/-- `Account` (models.py).  `email` is typed `str` in the dataclass but the
runtime never checks it, so it is carried as the value actually stored. -/
structure Account where
  uuid : String
  index_num : ℕ
  email : Option String
  credentials_json : String
  nickname : Option String := none
  full_name : Option String := none
  display_name : Option String := none
  has_claude_max : Bool := false
  has_claude_pro : Bool := false
  org_uuid : Option String := none
  org_name : Option String := none
  org_type : Option String := none
  billing_type : Option String := none
  rate_limit_tier : Option String := none
  created_at : Option String := none
  updated_at : Option String := none
  deriving DecidableEq

/-- `Candidate` (models.py lines 210-234): the dataclass as declared, with its
actual field names `fresh_bonus` and `priority_drain`. -/
structure Candidate where
  account : Account
  usage : UsageSnapshot
  tier : ℕ
  window : String
  utilization : ℚ
  headroom : ℚ
  hours_to_reset : ℚ
  drain_rate : ℚ
  expected_utilization : ℚ
  pace_gap : ℚ
  pace_adjustment : ℚ
  fresh_bonus : ℚ
  priority_drain : ℚ
  five_hour_utilization : ℚ
  five_hour_factor : ℚ
  adjusted_drain : ℚ
  expected_burst : ℚ
  burst_blocked : Bool
  active_sessions : ℕ
  recent_sessions : ℕ
  refreshed : Bool := false
  deriving DecidableEq

/-- Field names of the `Candidate` dataclass, in declaration order
(models.py lines 214-234). -/
def candidate_field_names : List String :=
  ["account", "usage", "tier", "window", "utilization", "headroom",
   "hours_to_reset", "drain_rate", "expected_utilization", "pace_gap",
   "pace_adjustment", "fresh_bonus", "priority_drain",
   "five_hour_utilization", "five_hour_factor", "adjusted_drain",
   "expected_burst", "burst_blocked", "active_sessions", "recent_sessions",
   "refreshed"]

/-- `Candidate` fields without a default value: every field except
`refreshed` (models.py line 234). -/
def candidate_required_field_names : List String :=
  candidate_field_names.filter (fun n => n ≠ "refreshed")

/-- Python attribute lookup for the rational-valued attributes of a
`Candidate` instance: exactly the declared numeric dataclass fields resolve;
any other name raises `AttributeError` (modelled as `none`). -/
def Candidate.numAttr (c : Candidate) : String → Option ℚ
  | "utilization" => some c.utilization
  | "headroom" => some c.headroom
  | "hours_to_reset" => some c.hours_to_reset
  | "drain_rate" => some c.drain_rate
  | "expected_utilization" => some c.expected_utilization
  | "pace_gap" => some c.pace_gap
  | "pace_adjustment" => some c.pace_adjustment
  | "fresh_bonus" => some c.fresh_bonus
  | "priority_drain" => some c.priority_drain
  | "five_hour_utilization" => some c.five_hour_utilization
  | "five_hour_factor" => some c.five_hour_factor
  | "adjusted_drain" => some c.adjusted_drain
  | "expected_burst" => some c.expected_burst
  | _ => none

/-- The lexicographically ordered six-component rank value. -/
abbrev RankTuple := ℚ ×ₗ (ℚ ×ₗ (ℚ ×ₗ (ℚ ×ₗ (ℚ ×ₗ ℚ))))

/-- Build a rank value from its six components. -/
def mkRank (a b c d e f : ℚ) : RankTuple :=
  toLex (a, toLex (b, toLex (c, toLex (d, toLex (e, f)))))

/-- `Candidate.rank` (models.py lines 236-246): the multi-dimensional sort key
`(adjusted_drain, utilization, -hours_to_reset, -five_hour_utilization,
-active_sessions, -recent_sessions)` under Python tuple (lexicographic)
comparison. -/
def Candidate.rank (c : Candidate) : RankTuple :=
  mkRank c.adjusted_drain c.utilization (-c.hours_to_reset)
    (-c.five_hour_utilization) (-(c.active_sessions : ℚ)) (-(c.recent_sessions : ℚ))

/-! ## constants.py (load balancer tuning parameters) -/

def SIMILAR_DRAIN_THRESHOLD : ℚ := 0.05
def CACHE_TTL_SECONDS : ℚ := 300
def STALE_CACHE_SECONDS : ℚ := 60
def HIGH_DRAIN_REFRESH_THRESHOLD : ℚ := 1.0
def FIVE_HOUR_PENALTIES : List (ℚ × ℚ) := [(90.0, 0.5), (85.0, 0.7), (80.0, 0.85)]
def FIVE_HOUR_ROTATION_CAP : ℚ := 90.0
def BURST_THRESHOLD : ℚ := 94.0
def DEFAULT_BURST_BUFFER : ℚ := 4.0
def LOW_USAGE_BONUS_CAP : ℚ := 60.0
def LOW_USAGE_BONUS_FLOOR : ℚ := 20.0
def LOW_USAGE_BONUS_GAIN : ℚ := 5.0
def OPUS_BONUS_THRESHOLD : ℚ := 85.0
def OPUS_PACE_GATE : ℚ := 90.0
def OPUS_PENALTY_THRESHOLD : ℚ := 95.0
def OPUS_HIGH_UTIL_PENALTY : ℚ := 2.0

/-! ## core/load_balancing.py -/

def WINDOW_LENGTH_HOURS : ℚ := 168.0
def BOOTSTRAP_RESET_HOURS : ℚ := 1.0
def PACE_GAIN : ℚ := 1.0
def PACE_AHEAD_DAMPING : ℚ := 0.5
def MAX_PACE_ADJUSTMENT : ℚ := 4.0

/-- The value set computed by the body of `build_candidate`
(load_balancing.py lines 43-115): the keyword arguments it hands to the
`Candidate(...)` constructor call, under the names used at that call site. -/
structure ScoredCandidate where
  account : Account
  usage : UsageSnapshot
  tier : ℕ
  window : String
  utilization : ℚ
  headroom : ℚ
  hours_to_reset : ℚ
  drain_rate : ℚ
  expected_utilization : ℚ
  pace_gap : ℚ
  pace_adjustment : ℚ
  usage_bonus : ℚ
  high_util_penalty : ℚ
  priority_score : ℚ
  five_hour_utilization : ℚ
  five_hour_factor : ℚ
  adjusted_drain : ℚ
  expected_burst : ℚ
  burst_blocked : Bool
  active_sessions : ℕ
  recent_sessions : ℕ
  refreshed : Bool
  deriving DecidableEq

/-- The `for threshold, factor in FIVE_HOUR_PENALTIES: if util >= threshold:
factor; break` loop of load_balancing.py lines 105-109 (default 1.0). -/
def fiveHourFactorOf (util : ℚ) : ℚ :=
  go FIVE_HOUR_PENALTIES
where
  go : List (ℚ × ℚ) → ℚ
    | [] => 1.0
    | (threshold, factor) :: rest => if threshold ≤ util then factor else go rest

/-- The scoring body of `build_candidate` (load_balancing.py lines 43-115),
up to but not including the `Candidate(...)` constructor call.  Returns `none`
when both weekly windows are at 99 %+ (a null utilization reads as 0). -/
def build_candidate_score (account : Account) (usage : UsageSnapshot)
    (burst_buffer : ℚ) (active_sessions recent_sessions : ℕ)
    (refreshed : Bool) : Option ScoredCandidate :=
  let opus_util : ℚ := (usage.seven_day_opus.utilization).getD 0
  let overall_util : ℚ := (usage.seven_day.utilization).getD 0
  if 99 ≤ opus_util ∧ 99 ≤ overall_util then
    none
  else
    let sel : String × ℕ × ℚ × ℚ :=
      if overall_util < 99 then
        ("overall", 2, overall_util, usage.seven_day.hours_until_reset)
      else
        ("opus", 1, opus_util, usage.seven_day_opus.hours_until_reset)
    let window := sel.1
    let tier := sel.2.1
    let utilization := sel.2.2.1
    let no_reset_clock :=
      usage.seven_day.resets_at = none ∧ usage.seven_day_opus.resets_at = none
    let hours_to_reset :=
      if no_reset_clock then pyMin sel.2.2.2 BOOTSTRAP_RESET_HOURS else sel.2.2.2
    let headroom := pyMax (99 - utilization) 0
    let effective_hours_left := pyMax hours_to_reset (1/1000)
    let drain_rate := if 0 < headroom then headroom / effective_hours_left else 0
    let window_hours := WINDOW_LENGTH_HOURS
    let elapsed_hours := pyMax (window_hours - pyMin hours_to_reset window_hours) 0
    let expected_utilization := pyMax 0 (pyMin ((elapsed_hours / window_hours) * 100) 100)
    let pace_gap := expected_utilization - utilization
    let pace_adjustment :=
      if 0 < headroom ∧ OPUS_PACE_GATE ≤ opus_util ∧ opus_util < 99 then
        let pa := (pace_gap / effective_hours_left) * PACE_GAIN
        let pa := if pace_gap < 0 then pa * PACE_AHEAD_DAMPING else pa
        pyMax (pyMin pa MAX_PACE_ADJUSTMENT) (-MAX_PACE_ADJUSTMENT)
      else 0
    let usage_bonus :=
      if 0 < headroom ∧ opus_util < OPUS_BONUS_THRESHOLD ∧
          utilization < LOW_USAGE_BONUS_CAP then
        let clamped_util := pyMax utilization LOW_USAGE_BONUS_FLOOR
        let normalized_gap := (LOW_USAGE_BONUS_CAP - clamped_util) / LOW_USAGE_BONUS_CAP
        (pyMax normalized_gap 0) * LOW_USAGE_BONUS_GAIN
      else 0
    let high_util_penalty :=
      if OPUS_PENALTY_THRESHOLD ≤ opus_util then OPUS_HIGH_UTIL_PENALTY else 0
    let priority_score := drain_rate + pace_adjustment + usage_bonus - high_util_penalty
    let five_hour_util : ℚ := (usage.five_hour.utilization).getD 0
    let five_hour_factor := fiveHourFactorOf five_hour_util
    let adjusted_drain := priority_score * five_hour_factor
    let expected_burst := burst_buffer
    let burst_blocked := BURST_THRESHOLD ≤ utilization + expected_burst
    some {
      account := account
      usage := usage
      tier := tier
      window := window
      utilization := utilization
      headroom := headroom
      hours_to_reset := hours_to_reset
      drain_rate := drain_rate
      expected_utilization := expected_utilization
      pace_gap := pace_gap
      pace_adjustment := pace_adjustment
      usage_bonus := usage_bonus
      high_util_penalty := high_util_penalty
      priority_score := priority_score
      five_hour_utilization := five_hour_util
      five_hour_factor := five_hour_factor
      adjusted_drain := adjusted_drain
      expected_burst := expected_burst
      burst_blocked := burst_blocked
      active_sessions := active_sessions
      recent_sessions := recent_sessions
      refreshed := refreshed
    }

/-- The keyword names supplied at the `Candidate(...)` constructor call ending
`build_candidate` (load_balancing.py lines 117-140), in source order. -/
def build_candidate_call_keywords : List String :=
  ["account", "usage", "tier", "window", "utilization", "headroom",
   "hours_to_reset", "drain_rate", "expected_utilization", "pace_gap",
   "pace_adjustment", "usage_bonus", "high_util_penalty", "priority_score",
   "five_hour_utilization", "five_hour_factor", "adjusted_drain",
   "expected_burst", "burst_blocked", "active_sessions", "recent_sessions",
   "refreshed"]

/-- Python keyword-call semantics for the `Candidate` dataclass constructor: a
call succeeds exactly when every supplied keyword is a declared field and every
field without a default receives a keyword; otherwise it raises `TypeError`. -/
def candidate_ctor_accepts (kws : List String) : Bool :=
  kws.all (fun k => candidate_field_names.contains k) &&
  candidate_required_field_names.all (fun f => kws.contains f)

/-- `build_candidate` (load_balancing.py lines 29-140): the scoring body
followed by the `Candidate(...)` keyword call.  A rejected account yields
`.ok none`; otherwise the constructor call runs, and the value it would carry
is the scored record. -/
def build_candidate (account : Account) (usage : UsageSnapshot)
    (burst_buffer : ℚ) (active_sessions recent_sessions : ℕ)
    (refreshed : Bool) : Except PyError (Option ScoredCandidate) :=
  match build_candidate_score account usage burst_buffer active_sessions
      recent_sessions refreshed with
  | none => .ok none
  | some s =>
    if candidate_ctor_accepts build_candidate_call_keywords then .ok (some s)
    else .error .typeError

/-- Descending-rank comparison used by `pool.sort(key=lambda c: c.rank,
reverse=True)` in `select_best_candidate`. -/
def rankGe (a b : Candidate) : Prop := b.rank ≤ a.rank

instance : DecidableRel rankGe := fun a b => inferInstanceAs (Decidable (b.rank ≤ a.rank))

instance : IsTotal Candidate rankGe := ⟨fun a b => le_total b.rank a.rank⟩

instance : IsTrans Candidate rankGe := ⟨fun _ _ _ h h' => le_trans h' h⟩

/-- Stage-1 soft filter of `select_best_candidate` (load_balancing.py lines
153-155): prefer non-burst-blocked candidates, else admit all. -/
def burst_pool (candidates : List Candidate) : List Candidate :=
  let usable := candidates.filter (fun c => !c.burst_blocked)
  if usable.isEmpty then candidates else usable

/-- Stage-2 soft filter of `select_best_candidate` (load_balancing.py lines
157-159): prefer candidates with 5-hour utilization below the rotation cap,
else keep the stage-1 pool. -/
def selection_pool (candidates : List Candidate) : List Candidate :=
  let pool := burst_pool candidates
  let cool := pool.filter (fun c => c.five_hour_utilization < FIVE_HOUR_ROTATION_CAP)
  if cool.isEmpty then pool else cool

/-- `select_best_candidate` (load_balancing.py lines 143-164).  Python's
stable in-place sort with `reverse=True` is modelled by a stable insertion
sort under the descending-rank relation; the result is the first element. -/
def select_best_candidate (candidates : List Candidate) : Option Candidate :=
  match candidates with
  | [] => none
  | _ => (List.insertionSort rankGe (selection_pool candidates)).head?

/-- `select_top_similar_candidates` (load_balancing.py lines 167-186): sort
by rank descending (Python's stable `sorted`, modelled by a stable insertion
sort), take the leader, and keep every candidate of the leader's tier whose
adjusted drain is within `threshold` of the leader's. -/
def select_top_similar_candidates (candidates : List Candidate)
    (threshold : ℚ) : List Candidate :=
  match candidates with
  | [] => []
  | _ =>
    match List.insertionSort rankGe candidates with
    | [] => []
    | top :: rest =>
      (top :: rest).filter (fun c =>
        c.tier == top.tier ∧
        pyAbs (top.adjusted_drain - c.adjusted_drain) ≤ threshold)

/-- `needs_refresh` (load_balancing.py lines 189-211).  The high-drain branch
reads `candidate.priority_score`, which is resolved through the attribute
table of the `Candidate` dataclass. -/
def needs_refresh (candidate : Candidate) (stale_seconds : ℚ)
    (high_drain_threshold : ℚ) : Except PyError Bool :=
  if candidate.refreshed then .ok false
  else if candidate.usage.cache_source = "live" then .ok false
  else
    let cache_age := candidate.usage.cache_age_seconds
    if stale_seconds < cache_age then .ok true
    else
      match candidate.numAttr "priority_score" with
      | none => .error .attributeError
      | some p =>
        if high_drain_threshold ≤ p ∧ 10 < cache_age then .ok true
        else .ok false

/-! ## services/switching.py — `SwitchingService._choose_round_robin`

Session counters are modelled as total maps with default 0 (matching
`dict.get(uuid, 0)`); the persisted round-robin state is a map from window
label to the last selected UUID (`Store.get_round_robin_last` /
`set_round_robin_last`, read through the store's cache). -/

/-- Ascending-index comparison used by `pool.sort(key=lambda c:
c.account.index_num)`. -/
def indexLe (a b : Candidate) : Prop := a.account.index_num ≤ b.account.index_num

instance : DecidableRel indexLe :=
  fun a b => inferInstanceAs (Decidable (a.account.index_num ≤ b.account.index_num))

instance : IsTotal Candidate indexLe := ⟨fun a b => Nat.le_total _ _⟩

instance : IsTrans Candidate indexLe := ⟨fun _ _ _ h h' => Nat.le_trans h h'⟩

/-- The tie-group reduction of `_choose_round_robin` (switching.py lines
196-205): keep the candidates with the minimum active-session count, of those
the ones with the minimum recent-session count, then sort by ascending account
index (Python's stable sort, modelled by a stable insertion sort).  `min()`
over an empty sequence raises in Python; that case surfaces as `[]` here and
is turned back into the error by `choose_round_robin`. -/
def rr_reduce (candidates : List Candidate) (active recent : String → ℕ) :
    List Candidate :=
  match (candidates.map fun c => active c.account.uuid).min? with
  | none => []
  | some min_active =>
    let pool := candidates.filter fun c => active c.account.uuid == min_active
    match (pool.map fun c => recent c.account.uuid).min? with
    | none => []
    | some min_recent =>
      List.insertionSort indexLe
        (pool.filter fun c => recent c.account.uuid == min_recent)

/-- The window label `f"tier_{pool[0].tier}"` of switching.py line 208
(`""` for the unreachable empty pool). -/
def rr_window_label (pool : List Candidate) : String :=
  match pool with
  | [] => ""
  | c :: _ => "tier_" ++ toString c.tier

/-- The round-robin cursor rule of switching.py lines 209-219: starting
position 0 unless a truthy cursor points at a member of the pool, in which
case the position after the cursor's member (wrapping around). -/
def rr_next_idx (pool : List Candidate) (last_uuid : Option String) : ℕ :=
  match last_uuid with
  | none => 0
  | some lu =>
    if lu ≠ "" ∧ (pool.map fun c => c.account.uuid).contains lu then
      (pool.findIdx (fun c => c.account.uuid == lu) + 1) % pool.length
    else 0

/-- Body of `_choose_round_robin` past the single-candidate shortcut
(switching.py lines 196-226): reduce the tie group, pick the cursor position,
persist the selected UUID under the window label.  `pool[next_idx]` is
modelled by `getD` (the index is always in range since the pool is
nonempty). -/
def choose_round_robin_go (candidates : List Candidate)
    (active recent : String → ℕ) (rr : String → Option String) :
    Except PyError (Candidate × (String → Option String)) :=
  match rr_reduce candidates active recent with
  | [] => .error .valueError
  | c0 :: rest =>
    let pool := c0 :: rest
    let window := "tier_" ++ toString c0.tier
    let selected := pool.getD (rr_next_idx pool (rr window)) c0
    .ok (selected, fun w => if w = window then some selected.account.uuid else rr w)

/-- `SwitchingService._choose_round_robin` (switching.py lines 182-226) as a
pure function of the candidate list, the two counters, and the round-robin
state; returns the selected candidate and the updated state.  `last_uuid and
last_uuid in candidate_uuids` is Python truthiness: a `None` or empty cursor
starts at position 0. -/
def choose_round_robin (candidates : List Candidate)
    (active recent : String → ℕ) (rr : String → Option String) :
    Except PyError (Candidate × (String → Option String)) :=
  match candidates with
  | [c] => .ok (c, rr)
  | _ => choose_round_robin_go candidates active recent rr

/-- The final-pick step of `SwitchingService.select_optimal` (switching.py
lines 119-126): form the similar group, raise no-accounts-available when it
is empty, and hand it to `_choose_round_robin`.  (The `if not selected:
selected = similar[0]` fallback of line 126 is unreachable:
`_choose_round_robin` always returns a candidate for a nonempty group.)
`select_best_candidate` is imported by the service (switching.py line 15)
but never called. -/
def select_optimal_pick (candidates : List Candidate)
    (active recent : String → ℕ) (rr : String → Option String) :
    Except PyError (Candidate × (String → Option String)) :=
  match select_top_similar_candidates candidates SIMILAR_DRAIN_THRESHOLD with
  | [] => .error .noAccountsAvailable
  | c :: rest => choose_round_robin (c :: rest) active recent rr

/-! ## data/credential_store.py -/

/-- The `claudeAiOauth` object inside a credential blob; every key is
optional, matching `dict.get` access. -/
structure OAuthData where
  accessToken : Option String := none
  refreshToken : Option String := none
  expiresAt : Option ℤ := none
  scopes : List String := []
  deriving DecidableEq

/-- A parsed credential document: the `claudeAiOauth` object (optional, for
`creds.get('claudeAiOauth', {})` reads) plus any unrecognized top-level
content, carried opaquely. -/
structure Creds where
  claudeAiOauth : Option OAuthData := none
  extra_keys : List String := []
  deriving DecidableEq

/-- `CredentialStore.REFRESH_BUFFER_MS` (10 minutes). -/
def REFRESH_BUFFER_MS : ℤ := 600000

/-- `CredentialStore.is_token_fresh` (credential_store.py lines 51-58):
`expiresAt` defaults to 0 when the key (or the oauth object) is missing;
fresh iff `expiresAt - 10 min > now`. -/
def is_token_fresh (credentials : Creds) (force : Bool) (now_ms : ℤ) : Bool :=
  if force then false
  else
    let expires_at := ((credentials.claudeAiOauth.map OAuthData.expiresAt).join).getD 0
    decide (now_ms < expires_at - REFRESH_BUFFER_MS)

/-- Body of a token-endpoint 200 response as consumed by the code:
`access_token` is read by subscript (KeyError when missing), the other keys by
`get` with a default. -/
structure TokenResponseBody where
  access_token : Option String := none
  refresh_token : Option String := none
  expires_in : Option ℤ := none
  deriving DecidableEq

/-- Outcome of the `requests.post` call to the OAuth endpoint. -/
inductive HttpOutcome where
  | transportError
  | response (status : ℕ) (body : TokenResponseBody)
  deriving DecidableEq

/-- `CredentialStore.refresh_access_token` (credential_store.py lines 60-107)
over an already parsed credential document (`parse_credentials` guarantees the
`claudeAiOauth` key is present, hence the `invalidCredentials` branch for a
missing object).  A falsy (`None` or empty) refresh token raises
token-unavailable; a non-200 status raises token-unavailable; a transport
failure raises token-unavailable; on 200 the access token is replaced
(KeyError if the response lacks one), the refresh token is replaced when the
response carries one, and the expiry becomes `now + expires_in*1000` with
`expires_in` defaulting to 3600. -/
def refresh_access_token (creds : Creds) (force : Bool) (now_ms : ℤ)
    (outcome : HttpOutcome) : Except PyError Creds :=
  match creds.claudeAiOauth with
  | none => .error .invalidCredentials
  | some oauth =>
    if is_token_fresh creds force now_ms then .ok creds
    else
      match oauth.refreshToken with
      | none => .error .tokenUnavailable
      | some refresh_token =>
        if refresh_token = "" then .error .tokenUnavailable
        else
          match outcome with
          | .transportError => .error .tokenUnavailable
          | .response status body =>
            if status ≠ 200 then .error .tokenUnavailable
            else
              match body.access_token with
              | none => .error .keyError
              | some new_access =>
                .ok { creds with
                  claudeAiOauth := some { oauth with
                    accessToken := some new_access
                    refreshToken := some (body.refresh_token.getD refresh_token)
                    expiresAt := some (now_ms + (body.expires_in.getD 3600) * 1000) } }

/-- The filesystem operations `write_credentials` can perform on the temp
file and the destination (credential_store.py lines 120-134). -/
inductive WriteStep where
  | createTemp
  | writeJson
  | fsyncTemp
  | chmodTemp
  | renameOverDest
  deriving DecidableEq

/-- The operation sequence actually performed by
`CredentialStore.write_credentials` (credential_store.py lines 120-129):
open+write the sibling `.tmp` file, chmod it to 0600, rename it over the
destination.  There is no fsync call in the function. -/
def write_credentials_steps : List WriteStep :=
  [.createTemp, .writeJson, .chmodTemp, .renameOverDest]

/-- Modelled from the spec's words (§4.3), for comparison only: the operation
sequence the specification claims — temp file, JSON write, fsync, chmod,
rename. -/
def write_credentials_claimed_steps : List WriteStep :=
  [.createTemp, .writeJson, .fsyncTemp, .chmodTemp, .renameOverDest]

/-- Filesystem state visible to `write_credentials`: the destination file and
the sibling temp file (contents of each, `none` = absent). -/
structure CredFS where
  dest : Option String := none
  temp : Option String := none
  deriving DecidableEq

/-- Effect of one completed step on the filesystem.  `doc` is the serialized
JSON document; the rename atomically installs the temp file's content. -/
def applyWriteStep (doc : String) (fs : CredFS) : WriteStep → CredFS
  | .createTemp => { fs with temp := some "" }
  | .writeJson => { fs with temp := some doc }
  | .fsyncTemp => fs
  | .chmodTemp => fs
  | .renameOverDest => { dest := fs.temp, temp := none }

/-- Effect of a step that fails midway: an interrupted `json.dump` can leave
an arbitrary prefix `truncated` in the temp file; every other step leaves the
filesystem as it was. -/
def applyFailedStep (truncated : String) (fs : CredFS) : WriteStep → CredFS
  | .writeJson => { fs with temp := some truncated }
  | _ => fs

/-- States reached while running a step list, starting from `fs`, when the
step at position `failAt` (if any) fails: all intermediate states, ending
either with the state after the last successful step or — on failure — with
the state left by the failing step followed by the `except` handler's
`temp_path.unlink()` (credential_store.py lines 131-134). -/
def write_states (doc truncated : String) : List WriteStep → Option ℕ → CredFS →
    List CredFS
  | [], _, fs => [fs]
  | step :: rest, failAt, fs =>
    match failAt with
    | some 0 =>
      let fsFail := applyFailedStep truncated fs step
      [fs, fsFail, { fsFail with temp := none }]
    | some (n + 1) => fs :: write_states doc truncated rest (some n) (applyWriteStep doc fs step)
    | none => fs :: write_states doc truncated rest none (applyWriteStep doc fs step)

/-- Run a step list with failure injection: `failAt` names the step (by
position) that raises, if any.  Returns the propagated error (if one was
raised) together with the final filesystem state; on failure the `except`
handler (credential_store.py lines 131-134) unlinks the temp file and
re-raises. -/
def write_credentials_run (doc truncated : String) :
    List WriteStep → Option ℕ → CredFS → Option PyError × CredFS
  | [], _, fs => (none, fs)
  | step :: rest, failAt, fs =>
    match failAt with
    | some 0 =>
      let fsFail := applyFailedStep truncated fs step
      (some .osError, { fsFail with temp := none })
    | some (n + 1) => write_credentials_run doc truncated rest (some n) (applyWriteStep doc fs step)
    | none => write_credentials_run doc truncated rest none (applyWriteStep doc fs step)

/-- `CredentialStore.write_credentials` (credential_store.py lines 109-134):
the four-step sequence, with failure injection. -/
def write_credentials (doc truncated : String) (failAt : Option ℕ)
    (fs : CredFS) : Option PyError × CredFS :=
  write_credentials_run doc truncated write_credentials_steps failAt fs

/-! ## data/store.py — accounts table, in-memory cache, `save_account`,
`get_account_by_identifier`

The `accounts` table is modelled as the list of its rows in insertion order;
`Account.from_row` is the identity on the row model.  The serialized
credential blob (`json.dumps(credentials)`) is carried as the already
serialized string.  `_accounts_by_uuid` is a dict built from the cache list;
since the table has a UNIQUE constraint on `uuid`, it is modelled by a first
match scan of the cache list. -/

/-- The `account` sub-object of a profile response
(`profile.get("account", {})` with `get` reads; a missing sub-object behaves
as the all-`none` record). -/
structure ProfileAccount where
  uuid : Option String := none
  email : Option String := none
  full_name : Option String := none
  display_name : Option String := none
  has_claude_max : Bool := false
  has_claude_pro : Bool := false
  deriving DecidableEq

/-- The `organization` sub-object of a profile response. -/
structure ProfileOrg where
  uuid : Option String := none
  name : Option String := none
  organization_type : Option String := none
  billing_type : Option String := none
  rate_limit_tier : Option String := none
  deriving DecidableEq

/-- A profile response as consumed by `Store.save_account`. -/
structure Profile where
  account : ProfileAccount := {}
  organization : ProfileOrg := {}
  deriving DecidableEq

/-- The `Store`'s observable state: the `accounts` table and the in-memory
accounts cache (`_accounts_cache`, ordered by `index_num`;
`_accounts_by_uuid` is derived from it). -/
structure StoreState where
  accounts_table : List Account := []
  accounts_cache : List Account := []
  deriving DecidableEq

/-- Ascending-`index_num` order used by `SELECT * FROM accounts ORDER BY
index_num`. -/
def accIndexLe (a b : Account) : Prop := a.index_num ≤ b.index_num

instance : DecidableRel accIndexLe :=
  fun a b => inferInstanceAs (Decidable (a.index_num ≤ b.index_num))

/-- `Store._load_accounts_cache` (store.py lines 183-188): reload the cache
from the table, ordered by index. -/
def load_accounts_cache (s : StoreState) : StoreState :=
  { s with accounts_cache := List.insertionSort accIndexLe s.accounts_table }

/-- `Store.get_account_by_uuid` (store.py lines 322-324): a read of the
`_accounts_by_uuid` dict derived from the cache. -/
def get_account_by_uuid (s : StoreState) (uuid : String) : Option Account :=
  s.accounts_cache.find? (fun a => a.uuid == uuid)

/-- Python's `str.isdigit()` as used on identifiers: nonempty and made of
decimal digits only. -/
def pyIsDigit (s : String) : Bool := !s.data.isEmpty && s.data.all Char.isDigit

/-- Python's `int()` on an all-digit string. -/
def strToNat (s : String) : ℕ := s.data.foldl (fun n c => 10 * n + (c.toNat - 48)) 0

/-- `Store.get_account_by_identifier` (store.py lines 326-340): an all-digits
identifier is first tried as an index; then nickname, email, or UUID are
matched against the cache. -/
def get_account_by_identifier (s : StoreState) (identifier : String) :
    Option Account :=
  let by_index : Option Account :=
    if pyIsDigit identifier then
      s.accounts_cache.find? (fun a => a.index_num == strToNat identifier)
    else none
  match by_index with
  | some acc => some acc
  | none =>
    s.accounts_cache.find? (fun a =>
      a.nickname == some identifier || a.email == some identifier ||
      a.uuid == identifier)

/-- The UPDATE statement of `save_account` (store.py lines 365-398): every
profile-derived column is overwritten, `nickname` via
`COALESCE(?, nickname)`, and the credential blob replaced. -/
def update_account_row (profile : Profile) (credentials_json : String)
    (nickname : Option String) (row : Account) : Account :=
  { row with
    nickname := nickname.orElse (fun _ => row.nickname)
    email := profile.account.email
    full_name := profile.account.full_name
    display_name := profile.account.display_name
    has_claude_max := profile.account.has_claude_max
    has_claude_pro := profile.account.has_claude_pro
    org_uuid := profile.organization.uuid
    org_name := profile.organization.name
    org_type := profile.organization.organization_type
    billing_type := profile.organization.billing_type
    rate_limit_tier := profile.organization.rate_limit_tier
    credentials_json := credentials_json }

/-- `Store.save_account` (store.py lines 342-438).  On update the row is
rewritten but the in-memory cache is left as it was, and the returned account
is whatever the (stale) cache currently holds for the UUID.  On insert the
next index is `max(index_num)+1` (0 for an empty table), the row is inserted,
the returned account is looked up in the cache *before* the cache is
reloaded, and only then is `_load_accounts_cache` invoked. -/
def save_account (s : StoreState) (profile : Profile)
    (credentials_json : String) (nickname : Option String) :
    Except PyError (Option Account × Bool × StoreState) :=
  match profile.account.uuid with
  | none => .error .valueError
  | some uuid =>
    match s.accounts_table.find? (fun a => a.uuid == uuid) with
    | some _ =>
      let table := s.accounts_table.map (fun a =>
        if a.uuid == uuid then update_account_row profile credentials_json nickname a
        else a)
      let s1 : StoreState := { s with accounts_table := table }
      .ok (get_account_by_uuid s1 uuid, false, s1)
    | none =>
      let max_index := (s.accounts_table.map Account.index_num).max?
      let index_num := match max_index with | none => 0 | some m => m + 1
      let row : Account :=
        { uuid := uuid
          index_num := index_num
          email := profile.account.email
          credentials_json := credentials_json
          nickname := nickname
          full_name := profile.account.full_name
          display_name := profile.account.display_name
          has_claude_max := profile.account.has_claude_max
          has_claude_pro := profile.account.has_claude_pro
          org_uuid := profile.organization.uuid
          org_name := profile.organization.name
          org_type := profile.organization.organization_type
          billing_type := profile.organization.billing_type
          rate_limit_tier := profile.organization.rate_limit_tier }
      let s1 : StoreState := { s with accounts_table := s.accounts_table ++ [row] }
      let returned := get_account_by_uuid s1 uuid
      let s2 := load_accounts_cache s1
      .ok (returned, true, s2)

/-- `Store.update_credentials` (store.py lines 440-450): rewrite the blob in
the table, then reload the accounts cache. -/
def update_credentials (s : StoreState) (account_uuid : String)
    (credentials_json : String) : StoreState :=
  load_accounts_cache
    { s with accounts_table := s.accounts_table.map (fun a =>
        if a.uuid == account_uuid then { a with credentials_json := credentials_json }
        else a) }

/-! ## Concrete sample values used by witnesses and counterexamples -/

def sampleAccount : Account :=
  { uuid := "acct-a", index_num := 0, email := some "a@example.com",
    credentials_json := "{}" }

def sampleAccountB : Account :=
  { uuid := "acct-b", index_num := 1, email := some "b@example.com",
    credentials_json := "{}" }

/-- A healthy snapshot: low utilization everywhere, reset clocks present. -/
def sampleUsage : UsageSnapshot :=
  { account_uuid := "acct-a"
    five_hour := { utilization := some 10, resets_at := some 2 }
    seven_day := { utilization := some 30, resets_at := some 100 }
    seven_day_opus := { utilization := some 5, resets_at := some 100 } }

/-- A snapshot with no reset clock on either weekly window. -/
def noClockUsage : UsageSnapshot :=
  { account_uuid := "acct-a"
    five_hour := { utilization := some 0, resets_at := none }
    seven_day := { utilization := some 0, resets_at := none }
    seven_day_opus := { utilization := some 0, resets_at := none } }

/-- A snapshot whose chosen (overall) window has a null reset timestamp while
the opus window still has one. -/
def fallbackUsage : UsageSnapshot :=
  { account_uuid := "acct-a"
    five_hour := { utilization := some 0, resets_at := none }
    seven_day := { utilization := some 20, resets_at := none }
    seven_day_opus := { utilization := some 10, resets_at := some 5 } }

/-- A snapshot exhausted on both weekly windows. -/
def exhaustedUsage : UsageSnapshot :=
  { account_uuid := "acct-a"
    five_hour := { utilization := some 10, resets_at := some 2 }
    seven_day := { utilization := some 99, resets_at := some 100 }
    seven_day_opus := { utilization := some 100, resets_at := some 100 } }

/-- A baseline candidate value (fields as the dataclass declares them). -/
def baseCandidate : Candidate :=
  { account := sampleAccount
    usage := sampleUsage
    tier := 2
    window := "overall"
    utilization := 30
    headroom := 69
    hours_to_reset := 100
    drain_rate := 1
    expected_utilization := 40
    pace_gap := 10
    pace_adjustment := 0
    fresh_bonus := 0
    priority_drain := 1
    five_hour_utilization := 10
    five_hour_factor := 1
    adjusted_drain := 1
    expected_burst := 4
    burst_blocked := false
    active_sessions := 0
    recent_sessions := 0
    refreshed := false }

/-- A second candidate on account B with a lower rank. -/
def candB : Candidate :=
  { baseCandidate with account := sampleAccountB, adjusted_drain := 0 }

/-- The baseline candidate, but burst-blocked; it still outranks `candB`. -/
def blockedTop : Candidate := { baseCandidate with burst_blocked := true }

/-- A candidate whose usage snapshot came from the cache 30 seconds ago. -/
def cachedCandidate : Candidate :=
  { baseCandidate with
    usage := { sampleUsage with cache_source := "cache", cache_age_seconds := 30 } }

/-- A candidate whose cached snapshot is 70 seconds old (past the stale
threshold). -/
def staleCandidate : Candidate :=
  { baseCandidate with
    usage := { sampleUsage with cache_source := "cache", cache_age_seconds := 70 } }

/-- A parsed credential blob: expired access token, usable refresh token. -/
def sampleOAuth : OAuthData :=
  { accessToken := some "old-token", refreshToken := some "refresh-1",
    expiresAt := some 1000 }

def sampleCreds : Creds := { claudeAiOauth := some sampleOAuth }

/-- A 200 token-endpoint response carrying only a new access token. -/
def sampleTokenBody : TokenResponseBody := { access_token := some "new-token" }

/-- A profile for account `acct-1`. -/
def sampleProfile : Profile :=
  { account := { uuid := some "acct-1", email := some "one@example.com" } }

/-! # Theorems -/

/-- The keyword list of the `Candidate(...)` call in `build_candidate` is not
accepted by the `Candidate` dataclass: `usage_bonus`, `high_util_penalty` and
`priority_score` are not fields, and the required fields `fresh_bonus` and
`priority_drain` receive no keyword. -/
theorem candidate_call_mismatch :
    candidate_ctor_accepts build_candidate_call_keywords = false ∧
    "usage_bonus" ∈ build_candidate_call_keywords ∧
    "usage_bonus" ∉ candidate_field_names ∧
    "high_util_penalty" ∈ build_candidate_call_keywords ∧
    "high_util_penalty" ∉ candidate_field_names ∧
    "priority_score" ∈ build_candidate_call_keywords ∧
    "priority_score" ∉ candidate_field_names ∧
    "fresh_bonus" ∈ candidate_field_names ∧
    "fresh_bonus" ∉ build_candidate_call_keywords ∧
    "priority_drain" ∈ candidate_field_names ∧
    "priority_drain" ∉ build_candidate_call_keywords := by
  decide

/-- Whenever the rejection gate does not fire, `build_candidate` reaches the
`Candidate(...)` constructor call and raises `TypeError`. -/
theorem build_candidate_raises (account : Account) (usage : UsageSnapshot)
    (burst_buffer : ℚ) (active_sessions recent_sessions : ℕ) (refreshed : Bool)
    (h : (usage.seven_day_opus.utilization).getD 0 < 99 ∨
      (usage.seven_day.utilization).getD 0 < 99) :
    build_candidate account usage burst_buffer active_sessions recent_sessions
      refreshed = .error .typeError := by
  have hC : ¬ (99 ≤ (usage.seven_day_opus.utilization).getD 0 ∧
      99 ≤ (usage.seven_day.utilization).getD 0) := by
    rcases h with h | h <;> intro hc <;>
      [exact absurd hc.1 (not_le.mpr h); exact absurd hc.2 (not_le.mpr h)]
  have hacc : candidate_ctor_accepts build_candidate_call_keywords = false := by
    decide
  by_cases hov : (usage.seven_day.utilization).getD 0 < 99 <;>
    simp [build_candidate, build_candidate_score, hC, hov, hacc]

/-- C1: for any input with a weekly utilization below 99 — here an account
with all windows low — `build_candidate` raises `TypeError` at the
`Candidate(...)` call instead of returning a Candidate, because the call's
keywords do not match the dataclass fields. -/
theorem build_candidate_type_error_at_sample :
    build_candidate sampleAccount sampleUsage 4 0 0 false = .error .typeError ∧
    (sampleUsage.seven_day_opus.utilization).getD 0 < 99 ∧
    candidate_ctor_accepts build_candidate_call_keywords = false := by
  refine ⟨build_candidate_raises _ _ _ _ _ _ (by decide), by decide, by decide⟩

/-- C2: the Scorer returns `none` exactly when both weekly utilizations
(null read as 0) are ≥ 99; otherwise the window-selection step picks the
overall window with tier 2 whenever overall utilization is below 99, and
falls back to the opus window with tier 1 exactly when the overall window has
no headroom. -/
theorem scorer_window_gate (account : Account) (usage : UsageSnapshot)
    (burst_buffer : ℚ) (active_sessions recent_sessions : ℕ) (refreshed : Bool) :
    (build_candidate account usage burst_buffer active_sessions recent_sessions
        refreshed = .ok none ↔
      99 ≤ (usage.seven_day_opus.utilization).getD 0 ∧
      99 ≤ (usage.seven_day.utilization).getD 0) ∧
    ∀ s, build_candidate_score account usage burst_buffer active_sessions
        recent_sessions refreshed = some s →
      ((s.window = "overall" ∧ s.tier = 2) ↔
        (usage.seven_day.utilization).getD 0 < 99) ∧
      ((s.window = "opus" ∧ s.tier = 1) ↔
        99 ≤ (usage.seven_day.utilization).getD 0) := by
  have hacc : candidate_ctor_accepts build_candidate_call_keywords = false := by
    decide
  by_cases hC : 99 ≤ (usage.seven_day_opus.utilization).getD 0 ∧
      99 ≤ (usage.seven_day.utilization).getD 0
  · constructor
    · simp [build_candidate, build_candidate_score, hC]
    · intro s hs
      simp [build_candidate_score, hC] at hs
  · by_cases hov : (usage.seven_day.utilization).getD 0 < 99
    · constructor
      · simp [build_candidate, build_candidate_score, hC, hov, hacc]
      · intro s hs
        simp [build_candidate_score, hC, hov] at hs
        subst hs
        simp [hov]
    · constructor
      · simp [build_candidate, build_candidate_score, hC, hov, hacc]
      · intro s hs
        simp [build_candidate_score, hC, hov] at hs
        subst hs
        simp [hov, not_lt.mp hov]

/-- Witness for `scorer_window_gate`: a snapshot exhausted on both weekly
windows is rejected. -/
theorem scorer_window_gate_witness :
    build_candidate sampleAccount exhaustedUsage 4 0 0 false = .ok none :=
  (scorer_window_gate sampleAccount exhaustedUsage 4 0 0 false).1.mpr
    ⟨by decide, by decide⟩

/-- C9: for every scored candidate the five-hour factor is 0.5 at burst
utilization ≥ 90, else 0.7 at ≥ 85, else 0.85 at ≥ 80, else 1.0 (first
matching threshold wins; a null burst utilization reads as 0), and the
adjusted drain is the priority score times this factor. -/
theorem five_hour_penalty_spec (account : Account) (usage : UsageSnapshot)
    (burst_buffer : ℚ) (active_sessions recent_sessions : ℕ) (refreshed : Bool)
    (s : ScoredCandidate)
    (hs : build_candidate_score account usage burst_buffer active_sessions
      recent_sessions refreshed = some s) :
    s.five_hour_utilization = (usage.five_hour.utilization).getD 0 ∧
    s.five_hour_factor =
      (if 90 ≤ s.five_hour_utilization then (0.5 : ℚ)
       else if 85 ≤ s.five_hour_utilization then 0.7
       else if 80 ≤ s.five_hour_utilization then 0.85
       else 1) ∧
    s.adjusted_drain = s.priority_score * s.five_hour_factor := by
  by_cases hC : 99 ≤ (usage.seven_day_opus.utilization).getD 0 ∧
      99 ≤ (usage.seven_day.utilization).getD 0
  · simp [build_candidate_score, hC] at hs
  · simp only [build_candidate_score, if_neg hC] at hs
    rw [Option.some_inj] at hs
    subst hs
    refine ⟨rfl, ?_, rfl⟩
    simp [fiveHourFactorOf, fiveHourFactorOf.go, FIVE_HOUR_PENALTIES]
    norm_num

/-- Witness for `five_hour_penalty_spec` at the healthy sample snapshot
(burst utilization 10, so the factor is 1). -/
theorem five_hour_penalty_spec_witness :
    ∃ s, build_candidate_score sampleAccount sampleUsage 4 0 0 false = some s ∧
      s.five_hour_factor =
        (if 90 ≤ s.five_hour_utilization then (0.5 : ℚ)
         else if 85 ≤ s.five_hour_utilization then 0.7
         else if 80 ≤ s.five_hour_utilization then 0.85
         else 1) ∧
      s.adjusted_drain = s.priority_score * s.five_hour_factor := by
  have h : (build_candidate_score sampleAccount sampleUsage 4 0 0 false).isSome := by
    decide
  refine ⟨(build_candidate_score sampleAccount sampleUsage 4 0 0 false).get h,
    (Option.some_get h).symm, ?_, ?_⟩
  · exact (five_hour_penalty_spec sampleAccount sampleUsage 4 0 0 false _
      (Option.some_get h).symm).2.1
  · exact (five_hour_penalty_spec sampleAccount sampleUsage 4 0 0 false _
      (Option.some_get h).symm).2.2

/-- C8 counterexample: a snapshot whose chosen (overall) window has a null
reset timestamp is scored with an hours-to-reset of 1 (the bootstrap clamp
applied when neither weekly window has a reset clock), not the claimed
168-hour fallback. -/
theorem hours_fallback_counterexample :
    (build_candidate_score sampleAccount noClockUsage 4 0 0 false).map
        ScoredCandidate.window = some "overall" ∧
    noClockUsage.seven_day.resets_at = none ∧
    (build_candidate_score sampleAccount noClockUsage 4 0 0 false).map
        ScoredCandidate.hours_to_reset = some 1 ∧
    (1 : ℚ) ≠ 168 := by
  refine ⟨?_, rfl, ?_, by norm_num⟩ <;>
    norm_num [build_candidate_score, noClockUsage, UsageWindow.hours_until_reset,
      pyMin, pyMax, BOOTSTRAP_RESET_HOURS]

/-- C8 amended: when the chosen window has a null reset timestamp the scorer
uses the 168-hour fallback — unless *neither* weekly window has a reset
timestamp, in which case the horizon is clamped down to the 1-hour bootstrap
value; the drain rate divides headroom by the horizon clamped above zero
(at 0.001). -/
theorem hours_fallback_amended (account : Account) (usage : UsageSnapshot)
    (burst_buffer : ℚ) (active_sessions recent_sessions : ℕ) (refreshed : Bool)
    (s : ScoredCandidate)
    (hs : build_candidate_score account usage burst_buffer active_sessions
      recent_sessions refreshed = some s)
    (hw : (s.window = "overall" ∧ usage.seven_day.resets_at = none) ∨
      (s.window = "opus" ∧ usage.seven_day_opus.resets_at = none)) :
    s.hours_to_reset =
      (if usage.seven_day.resets_at = none ∧ usage.seven_day_opus.resets_at = none
       then 1 else 168) ∧
    s.drain_rate =
      (if 0 < s.headroom then s.headroom / pyMax s.hours_to_reset (1/1000) else 0) := by
  by_cases hC : 99 ≤ (usage.seven_day_opus.utilization).getD 0 ∧
      99 ≤ (usage.seven_day.utilization).getD 0
  · simp [build_candidate_score, hC] at hs
  · simp only [build_candidate_score, if_neg hC] at hs
    rw [Option.some_inj] at hs
    by_cases hov : (usage.seven_day.utilization).getD 0 < 99
    · subst hs
      simp only [if_pos hov] at hw ⊢
      rcases hw with ⟨_, h7⟩ | ⟨hwin, _⟩
      · by_cases hop : usage.seven_day_opus.resets_at = none
        · simp [UsageWindow.hours_until_reset, h7, hop]
          norm_num [pyMin, BOOTSTRAP_RESET_HOURS]
        · simp [UsageWindow.hours_until_reset, h7, hop]
      · simp [if_pos hov] at hwin
    · subst hs
      simp only [if_neg hov] at hw ⊢
      rcases hw with ⟨hwin, _⟩ | ⟨_, hop⟩
      · simp [if_neg hov] at hwin
      · by_cases h7 : usage.seven_day.resets_at = none
        · simp [UsageWindow.hours_until_reset, h7, hop]
          norm_num [pyMin, BOOTSTRAP_RESET_HOURS]
        · simp [UsageWindow.hours_until_reset, h7, hop]

/-- Witness for `hours_fallback_amended`: overall window chosen, its reset
timestamp null, the opus window still carrying one — the fallback is 168 h. -/
theorem hours_fallback_amended_witness :
    ∃ s, build_candidate_score sampleAccount fallbackUsage 4 0 0 false = some s ∧
      s.hours_to_reset =
        (if fallbackUsage.seven_day.resets_at = none ∧
            fallbackUsage.seven_day_opus.resets_at = none
         then 1 else 168) := by
  have h : (build_candidate_score sampleAccount fallbackUsage 4 0 0 false).isSome := by
    decide
  have hs : build_candidate_score sampleAccount fallbackUsage 4 0 0 false =
      some ((build_candidate_score sampleAccount fallbackUsage 4 0 0 false).get h) :=
    (Option.some_get h).symm
  have hwmap : (build_candidate_score sampleAccount fallbackUsage 4 0 0 false).map
      ScoredCandidate.window = some "overall" := by
    norm_num [build_candidate_score, fallbackUsage]
  rw [hs] at hwmap
  have hw : ((build_candidate_score sampleAccount fallbackUsage 4 0 0 false).get h).window =
      "overall" := by
    rw [Option.map_some'] at hwmap
    exact Option.some.inj hwmap
  exact ⟨_, hs, (hours_fallback_amended sampleAccount fallbackUsage 4 0 0 false _
    hs (Or.inl ⟨hw, rfl⟩)).1⟩

/-- C10: a cached, not-yet-refreshed candidate whose cache age is past the
stale threshold is flagged; but one whose age is below the stale threshold
makes `needs_refresh` read `candidate.priority_score` — a name that is not a
field of the `Candidate` dataclass — so the call raises `AttributeError`
instead of applying the high-drain rule. -/
theorem needs_refresh_attribute_error :
    needs_refresh cachedCandidate 60 1 = .error .attributeError ∧
    cachedCandidate.refreshed = false ∧
    cachedCandidate.usage.cache_source = "cache" ∧
    cachedCandidate.usage.cache_age_seconds = 30 ∧
    Candidate.numAttr cachedCandidate "priority_score" = none ∧
    needs_refresh staleCandidate 60 1 = .ok true :=
  ⟨rfl, rfl, rfl, rfl, rfl, rfl⟩

/-- C5 counterexample: the operation sequence of `write_credentials` is not
the claimed one — it contains no fsync. -/
theorem write_credentials_no_fsync :
    write_credentials_steps ≠ write_credentials_claimed_steps ∧
    WriteStep.fsyncTemp ∉ write_credentials_steps ∧
    WriteStep.fsyncTemp ∈ write_credentials_claimed_steps := by
  decide

/-- C5 amended: `write_credentials` creates a sibling temp file, writes the
JSON document, chmods it 0600 and renames it over the destination (no fsync);
whichever step fails, the temp file is unlinked and the destination is left
unchanged, and at no intermediate point does the destination hold anything
but the old content or the complete new document. -/
theorem write_credentials_atomic (doc truncated : String) (failAt : Option ℕ)
    (fs : CredFS) :
    (∀ s ∈ write_states doc truncated write_credentials_steps failAt fs,
        s.dest = fs.dest ∨ s.dest = some doc) ∧
    (∀ e fs1, write_credentials doc truncated failAt fs = (some e, fs1) →
        fs1.dest = fs.dest ∧ fs1.temp = none) ∧
    (∀ fs1, write_credentials doc truncated failAt fs = (none, fs1) →
        fs1.dest = some doc ∧ fs1.temp = none) ∧
    WriteStep.fsyncTemp ∉ write_credentials_steps := by
  rcases failAt with _ | n
  · simp [write_credentials, write_credentials_run, write_states,
      write_credentials_steps, applyWriteStep, applyFailedStep]
  · rcases n with _ | _ | _ | _ | n <;>
      simp [write_credentials, write_credentials_run, write_states,
        write_credentials_steps, applyWriteStep, applyFailedStep]

/-- Witness for `write_credentials_atomic`: a failure at the chmod step
leaves the old destination intact and no temp file behind. -/
theorem write_credentials_atomic_witness :
    (write_credentials "NEWDOC" "TRUNC" (some 2)
        { dest := some "OLDDOC", temp := none }).2.dest = some "OLDDOC" ∧
    (write_credentials "NEWDOC" "TRUNC" (some 2)
        { dest := some "OLDDOC", temp := none }).2.temp = none :=
  (write_credentials_atomic "NEWDOC" "TRUNC" (some 2)
      { dest := some "OLDDOC", temp := none }).2.1 PyError.osError
    (write_credentials "NEWDOC" "TRUNC" (some 2)
      { dest := some "OLDDOC", temp := none }).2 rfl

/-- C6: freshness holds exactly when `expiresAt - 10 min > now`; for a
parseable blob with a usable refresh token and a stale access token, an HTTP
200 replaces the access token, replaces the refresh token only when the
response carries one (keeping the stored one otherwise), and sets the expiry
to `now + expires_in*1000` with `expires_in` defaulting to 3600; every
non-200 response and every transport failure raises token-unavailable. -/
theorem refresh_token_spec (oauth : OAuthData) (creds : Creds)
    (hc : creds.claudeAiOauth = some oauth) (now_ms : ℤ)
    (hstale : oauth.expiresAt.getD 0 - REFRESH_BUFFER_MS ≤ now_ms)
    (rt : String) (hrt : oauth.refreshToken = some rt) (hne : rt ≠ "") :
    (is_token_fresh creds false now_ms = true ↔
      now_ms < oauth.expiresAt.getD 0 - REFRESH_BUFFER_MS) ∧
    (∀ body tok, body.access_token = some tok →
      refresh_access_token creds false now_ms (.response 200 body) =
        .ok { creds with claudeAiOauth := some { oauth with
          accessToken := some tok
          refreshToken := some (body.refresh_token.getD rt)
          expiresAt := some (now_ms + (body.expires_in.getD 3600) * 1000) } }) ∧
    (∀ status body, status ≠ 200 →
      refresh_access_token creds false now_ms (.response status body) =
        .error .tokenUnavailable) ∧
    refresh_access_token creds false now_ms .transportError =
      .error .tokenUnavailable := by
  have hfresh : is_token_fresh creds false now_ms = false := by
    simp only [is_token_fresh, hc, Bool.false_eq_true, if_false, Option.map_some',
      Option.join, Option.some_bind, id_eq, decide_eq_false_iff_not, not_lt]
    exact hstale
  refine ⟨?_, ?_, ?_, ?_⟩
  · simp only [is_token_fresh, hc, Bool.false_eq_true, if_false, Option.map_some',
      Option.join, Option.some_bind, id_eq, decide_eq_true_eq]
  · intro body tok htok
    simp [refresh_access_token, hc, hfresh, hrt, hne, htok]
  · intro status body hstatus
    simp [refresh_access_token, hc, hfresh, hrt, hne, hstatus]
  · simp [refresh_access_token, hc, hfresh, hrt, hne]

/-- Witness for `refresh_token_spec`: a stale token refreshed through a 200
response that carries only an access token keeps the stored refresh token and
gets a one-hour expiry from `now`. -/
theorem refresh_token_spec_witness :
    refresh_access_token sampleCreds false 1000000000
        (.response 200 sampleTokenBody) =
      .ok { sampleCreds with claudeAiOauth := some { sampleOAuth with
        accessToken := some "new-token"
        refreshToken := some (sampleTokenBody.refresh_token.getD "refresh-1")
        expiresAt := some (1000000000 + (sampleTokenBody.expires_in.getD 3600) * 1000) } } :=
  (refresh_token_spec sampleOAuth sampleCreds rfl 1000000000 (by decide)
      "refresh-1" rfl (by decide)).2.1 sampleTokenBody "new-token" rfl

/-- C7: on the insert path `save_account` returns `(None, True)` — the
account is looked up in the accounts cache before the cache is reloaded — so
the caller never receives the upserted Account; the identifier lookup does
observe the inserted row afterwards.  On the update path the cache is never
reloaded, so both the returned account and a subsequent
`get_account_by_identifier` still expose the pre-update credential blob. -/
theorem save_account_cache_bug :
    (save_account {} sampleProfile "CREDS1" none).map
        (fun r => (r.1, r.2.1)) = .ok (none, true) ∧
    (save_account {} sampleProfile "CREDS1" none).map (fun r =>
        (get_account_by_identifier r.2.2 "acct-1").map Account.credentials_json) =
      .ok (some "CREDS1") ∧
    (save_account {} sampleProfile "CREDS1" none).map (fun r =>
        (save_account r.2.2 sampleProfile "CREDS2" none).map (fun r2 =>
          ((r2.1).map Account.credentials_json, r2.2.1,
           (get_account_by_identifier r2.2.2 "acct-1").map Account.credentials_json))) =
      .ok (.ok (some "CREDS1", false, some "CREDS1")) :=
  ⟨rfl, rfl, rfl⟩

/-- The stage-1 soft filter keeps a nonempty pool. -/
theorem burst_pool_ne_nil (candidates : List Candidate)
    (hne : candidates ≠ []) : burst_pool candidates ≠ [] := by
  simp only [burst_pool]
  split
  · exact hne
  · next h => simpa [List.isEmpty_iff] using h

/-- The two-stage soft filter keeps a nonempty pool. -/
theorem selection_pool_ne_nil (candidates : List Candidate)
    (hne : candidates ≠ []) : selection_pool candidates ≠ [] := by
  have hb := burst_pool_ne_nil candidates hne
  simp only [selection_pool]
  split
  · exact hb
  · next h => simpa [List.isEmpty_iff] using h

/-- Members of the filtered pool are candidates. -/
theorem selection_pool_subset (candidates : List Candidate) :
    ∀ c ∈ selection_pool candidates, c ∈ burst_pool candidates ∧ c ∈ candidates := by
  intro c hc
  have hb : c ∈ burst_pool candidates := by
    simp only [selection_pool] at hc
    split at hc
    · exact hc
    · exact (List.mem_filter.mp hc).1
  refine ⟨hb, ?_⟩
  simp only [burst_pool] at hb
  split at hb
  · exact hb
  · exact (List.mem_filter.mp hb).1

/-- The helper `select_best_candidate` does implement the soft-filtered,
rank-maximal choice: its pick comes from the softly filtered pool, a
burst-blocked candidate is admitted only when every candidate is
burst-blocked, a candidate at or above the 5-hour rotation cap is admitted
only when the whole remaining pool is, and the chosen candidate's rank tuple
is greatest among the admitted pool.  (The live selection pass never calls
this helper — see `selection_pass_admits_burst_blocked`.) -/
theorem select_best_candidate_spec (candidates : List Candidate)
    (hne : candidates ≠ []) :
    ∃ chosen, select_best_candidate candidates = some chosen ∧
      chosen ∈ selection_pool candidates ∧
      (∀ c ∈ selection_pool candidates, c.rank ≤ chosen.rank) ∧
      (∀ c ∈ selection_pool candidates, c.burst_blocked = true →
        ∀ d ∈ candidates, d.burst_blocked = true) ∧
      (∀ c ∈ selection_pool candidates,
        FIVE_HOUR_ROTATION_CAP ≤ c.five_hour_utilization →
        ∀ d ∈ burst_pool candidates,
          FIVE_HOUR_ROTATION_CAP ≤ d.five_hour_utilization) := by
  have hpool := selection_pool_ne_nil candidates hne
  have hperm : List.Perm (List.insertionSort rankGe (selection_pool candidates))
      (selection_pool candidates) := List.perm_insertionSort rankGe _
  have hsne : List.insertionSort rankGe (selection_pool candidates) ≠ [] := by
    intro h
    exact hpool (List.Perm.eq_nil (h ▸ hperm.symm))
  obtain ⟨chosen, rest, hcons⟩ := List.exists_cons_of_ne_nil hsne
  have hsort : List.Sorted rankGe
      (List.insertionSort rankGe (selection_pool candidates)) :=
    List.sorted_insertionSort rankGe _
  rw [hcons] at hsort hperm
  have hsel : select_best_candidate candidates = some chosen := by
    cases candidates with
    | nil => exact absurd rfl hne
    | cons a t =>
      show (List.insertionSort rankGe (selection_pool (a :: t))).head? = some chosen
      rw [hcons]
      rfl
  refine ⟨chosen, hsel, ?_, ?_, ?_, ?_⟩
  · exact hperm.mem_iff.mp (List.mem_cons_self chosen rest)
  · intro c hc
    rcases List.mem_cons.mp (hperm.mem_iff.mpr hc) with h | h
    · exact h ▸ le_refl _
    · exact List.rel_of_sorted_cons hsort c h
  · intro c hc hcb d hd
    have hb := (selection_pool_subset candidates c hc).1
    simp only [burst_pool] at hb
    split at hb
    case isTrue h1 =>
      have h1' := List.isEmpty_iff.mp h1
      have := List.filter_eq_nil_iff.mp h1' d hd
      simpa using this
    case isFalse h1 =>
      have := (List.mem_filter.mp hb).2
      simp [hcb] at this
  · intro c hc hcap d hd
    simp only [selection_pool] at hc
    split at hc
    case isTrue h2 =>
      have h2' := List.isEmpty_iff.mp h2
      have := List.filter_eq_nil_iff.mp h2' d hd
      simpa using this
    case isFalse h2 =>
      have := (List.mem_filter.mp hc).2
      rw [decide_eq_true_eq] at this
      exact absurd hcap (not_le.mpr this)

/-- Witness for `select_best_candidate_spec` on a concrete two-candidate
pool. -/
theorem select_best_candidate_spec_witness :
    ∃ chosen, select_best_candidate [baseCandidate, candB] = some chosen ∧
      chosen ∈ selection_pool [baseCandidate, candB] := by
  obtain ⟨chosen, h1, h2, -⟩ :=
    select_best_candidate_spec [baseCandidate, candB] (by simp)
  exact ⟨chosen, h1, h2⟩

/-- C3: the selection pass actually run by `select_optimal` (switching.py
lines 119-126) applies no burst-blocking or five-hour soft filter: with a
burst-blocked top-ranked candidate and a non-blocked candidate outside the
similar-drain window, the pass selects the burst-blocked candidate even
though a non-blocked one exists, whereas `select_best_candidate` — the
helper that implements the claimed soft filtering and rank-maximal choice,
imported by the service but never called — selects the non-blocked
candidate on the same input. -/
theorem selection_pass_admits_burst_blocked :
    select_optimal_pick [blockedTop, candB] (fun _ => 0) (fun _ => 0)
        (fun _ => none) = .ok (blockedTop, fun _ => none) ∧
    blockedTop.burst_blocked = true ∧
    candB.burst_blocked = false ∧
    select_best_candidate [blockedTop, candB] = some candB := by
  have hsort : List.insertionSort rankGe [blockedTop, candB] =
      [blockedTop, candB] := by decide
  have hsim : select_top_similar_candidates [blockedTop, candB]
      SIMILAR_DRAIN_THRESHOLD = [blockedTop] := by
    simp only [select_top_similar_candidates]
    rw [hsort]
    norm_num [List.filter, pyAbs, blockedTop, candB, baseCandidate,
      SIMILAR_DRAIN_THRESHOLD]
  have hbest : select_best_candidate [blockedTop, candB] = some candB := by
    norm_num [select_best_candidate, selection_pool, burst_pool, blockedTop,
      candB, baseCandidate, FIVE_HOUR_ROTATION_CAP, List.filter,
      List.insertionSort, List.orderedInsert]
  refine ⟨?_, rfl, rfl, hbest⟩
  simp only [select_optimal_pick]
  rw [hsim]
  rfl

/-- In a list whose images under `f` are distinct, searching for the image of
the `i`-th element finds position `i`. -/
theorem findIdx_map_nodup {α β : Type _} [BEq β] [LawfulBEq β] (f : α → β) :
    ∀ (l : List α) (i : ℕ) (hi : i < l.length),
      (l.map f).Nodup → l.findIdx (fun x => f x == f (l.get ⟨i, hi⟩)) = i := by
  intro l
  induction l with
  | nil => intro i hi _; simp at hi
  | cons a t ih =>
    intro i hi hnd
    have hnd' := List.nodup_cons.mp (hnd : (f a :: t.map f).Nodup)
    cases i with
    | zero => simp [List.findIdx_cons]
    | succ j =>
      have hj : j < t.length := by simpa using hi
      have hmem : f (t.get ⟨j, hj⟩) ∈ t.map f :=
        List.mem_map.mpr ⟨t.get ⟨j, hj⟩, t.get_mem _ _, rfl⟩
      have hne : ¬ (f a == f (t.get ⟨j, hj⟩)) = true := by
        rw [beq_iff_eq]
        intro h
        exact hnd'.1 (h ▸ hmem)
      rw [List.findIdx_cons]
      simp only [List.get_cons_succ]
      rw [Bool.cond_eq_if, if_neg hne]
      rw [ih j hj hnd'.2]

/-- `_choose_round_robin` on a group of more than one candidate runs the
reduction-and-cursor body. -/
theorem choose_round_robin_eq_go (candidates : List Candidate)
    (active recent : String → ℕ) (rr : String → Option String)
    (hlen : 1 < candidates.length) :
    choose_round_robin candidates active recent rr =
      choose_round_robin_go candidates active recent rr := by
  cases candidates with
  | nil => simp at hlen
  | cons a t =>
    cases t with
    | nil => simp at hlen
    | cons b t2 => rfl

/-- Evaluation of the reduction-and-cursor body once the reduced pool is
known. -/
theorem choose_round_robin_go_eval (candidates : List Candidate)
    (active recent : String → ℕ) (rr : String → Option String)
    (c0 : Candidate) (rest : List Candidate)
    (hcons : rr_reduce candidates active recent = c0 :: rest) :
    choose_round_robin_go candidates active recent rr =
      .ok ((c0 :: rest).getD
            (rr_next_idx (c0 :: rest) (rr ("tier_" ++ toString c0.tier))) c0,
          fun w => if w = "tier_" ++ toString c0.tier then
            some (((c0 :: rest).getD
              (rr_next_idx (c0 :: rest) (rr ("tier_" ++ toString c0.tier)))
              c0).account.uuid)
          else rr w) := by
  unfold choose_round_robin_go
  rw [hcons]

/-- The cursor position is always inside the nonempty pool. -/
theorem rr_next_idx_lt (c0 : Candidate) (rest : List Candidate)
    (last_uuid : Option String) :
    rr_next_idx (c0 :: rest) last_uuid < (c0 :: rest).length := by
  cases last_uuid with
  | none => simp [rr_next_idx]
  | some lu =>
    by_cases h : lu ≠ "" ∧ ((c0 :: rest).map fun c => c.account.uuid).contains lu
    · simp only [rr_next_idx, if_pos h, List.length_cons]
      exact Nat.mod_lt _ (Nat.succ_pos rest.length)
    · simp only [rr_next_idx, if_neg h, List.length_cons]
      exact Nat.succ_pos rest.length

/-- The cursor rule when a truthy cursor names a pool member: one past the
member's position, wrapping around. -/
theorem rr_next_idx_some (pool : List Candidate) (lu : String)
    (h1 : lu ≠ "") (h2 : (pool.map fun c => c.account.uuid).contains lu) :
    rr_next_idx pool (some lu) =
      (pool.findIdx (fun c => c.account.uuid == lu) + 1) % pool.length := by
  simp only [rr_next_idx]
  rw [if_pos ⟨h1, h2⟩]

/-- The tie-group reduction: nonempty, sorted by ascending index, drawn from
the candidates, minimizing the active-session count over all candidates and
the recent-session count among the active-minimal candidates; and it is a
permutation of a sublist of the candidates. -/
theorem rr_reduce_facts (candidates : List Candidate)
    (active recent : String → ℕ) (hne : candidates ≠ []) :
    rr_reduce candidates active recent ≠ [] ∧
    List.Sorted indexLe (rr_reduce candidates active recent) ∧
    (∀ c ∈ rr_reduce candidates active recent, c ∈ candidates) ∧
    (∀ c ∈ rr_reduce candidates active recent, ∀ d ∈ candidates,
      active c.account.uuid ≤ active d.account.uuid) ∧
    (∀ c ∈ rr_reduce candidates active recent, ∀ d ∈ candidates,
      (∀ e ∈ candidates, active d.account.uuid ≤ active e.account.uuid) →
      recent c.account.uuid ≤ recent d.account.uuid) ∧
    ∃ p2 : List Candidate, p2.Sublist candidates ∧
      List.Perm (rr_reduce candidates active recent) p2 := by
  obtain ⟨ma, hma⟩ : ∃ ma,
      (candidates.map fun c => active c.account.uuid).min? = some ma := by
    rcases h : (candidates.map fun c => active c.account.uuid).min? with _ | ma
    · rw [List.min?_eq_none_iff] at h
      simp at h
      exact absurd h hne
    · exact ⟨ma, h⟩
  obtain ⟨c1, hc1, hc1eq⟩ := List.mem_map.mp
    (List.min?_mem (fun a b => min_choice a b) hma)
  have hma_le : ∀ b ∈ candidates.map fun c => active c.account.uuid, ma ≤ b :=
    (List.le_min?_iff (fun a b c => le_min_iff) hma).mp (le_refl ma)
  have hc1p1 : c1 ∈ candidates.filter (fun c => active c.account.uuid == ma) :=
    List.mem_filter.mpr ⟨hc1, by simp [hc1eq]⟩
  obtain ⟨mr, hmr⟩ : ∃ mr,
      ((candidates.filter fun c => active c.account.uuid == ma).map
        fun c => recent c.account.uuid).min? = some mr := by
    rcases h : ((candidates.filter fun c => active c.account.uuid == ma).map
        fun c => recent c.account.uuid).min? with _ | mr
    · rw [List.min?_eq_none_iff] at h
      simp only [List.map_eq_nil_iff] at h
      rw [h] at hc1p1
      simp at hc1p1
    · exact ⟨mr, h⟩
  obtain ⟨c2, hc2, hc2eq⟩ := List.mem_map.mp
    (List.min?_mem (fun a b => min_choice a b) hmr)
  have hmr_le : ∀ b ∈ (candidates.filter fun c => active c.account.uuid == ma).map
      fun c => recent c.account.uuid, mr ≤ b :=
    (List.le_min?_iff (fun a b c => le_min_iff) hmr).mp (le_refl mr)
  have hpool_eq : rr_reduce candidates active recent =
      List.insertionSort indexLe
        ((candidates.filter fun c => active c.account.uuid == ma).filter
          fun c => recent c.account.uuid == mr) := by
    simp only [rr_reduce, hma, hmr]
  have hperm : List.Perm (rr_reduce candidates active recent)
      ((candidates.filter fun c => active c.account.uuid == ma).filter
        fun c => recent c.account.uuid == mr) := by
    rw [hpool_eq]
    exact List.perm_insertionSort indexLe _
  have hmemp2 : ∀ c ∈ rr_reduce candidates active recent,
      c ∈ (candidates.filter fun c => active c.account.uuid == ma).filter
        fun c => recent c.account.uuid == mr :=
    fun c hc => hperm.subset hc
  have hmemc : ∀ c ∈ rr_reduce candidates active recent, c ∈ candidates :=
    fun c hc =>
      (List.mem_filter.mp (List.mem_filter.mp (hmemp2 c hc)).1).1
  have hactive : ∀ c ∈ rr_reduce candidates active recent,
      active c.account.uuid = ma := fun c hc => by
    have := (List.mem_filter.mp (List.mem_filter.mp (hmemp2 c hc)).1).2
    simpa using this
  have hrecent : ∀ c ∈ rr_reduce candidates active recent,
      recent c.account.uuid = mr := fun c hc => by
    have := (List.mem_filter.mp (hmemp2 c hc)).2
    simpa using this
  refine ⟨?_, ?_, hmemc, ?_, ?_, ?_⟩
  · intro h
    have hc2p2 : c2 ∈ (candidates.filter fun c => active c.account.uuid == ma).filter
        fun c => recent c.account.uuid == mr :=
      List.mem_filter.mpr ⟨hc2, by simp [hc2eq]⟩
    rw [h] at hperm
    exact absurd (hperm.symm.subset hc2p2) (List.not_mem_nil c2)
  · rw [hpool_eq]
    exact List.sorted_insertionSort indexLe _
  · intro c hc d hd
    rw [hactive c hc]
    exact hma_le _ (List.mem_map.mpr ⟨d, hd, rfl⟩)
  · intro c hc d hd hdmin
    rw [hrecent c hc]
    have hdma : active d.account.uuid = ma := by
      have h1 : ma ≤ active d.account.uuid :=
        hma_le _ (List.mem_map.mpr ⟨d, hd, rfl⟩)
      have h2 : active d.account.uuid ≤ ma := hc1eq ▸ hdmin c1 hc1
      exact le_antisymm h2 h1
    have hdp1 : d ∈ candidates.filter (fun c => active c.account.uuid == ma) :=
      List.mem_filter.mpr ⟨hd, by simp [hdma]⟩
    exact hmr_le _ (List.mem_map.mpr ⟨d, hdp1, rfl⟩)
  · exact ⟨_, (List.filter_sublist _).trans (List.filter_sublist _), hperm⟩

/-- C4: on a tie group of more than one candidate (with distinct, nonempty
account UUIDs) the round-robin pass reduces the group by smallest
active-session count, then smallest recent-session count, sorts by ascending
account index, picks position 0 unless the persisted cursor names a member
(in which case the next position, wrapping around), persists the chosen UUID
as the new cursor, and a second pass with the advanced cursor selects the
next member of the reduced group. -/
theorem choose_round_robin_spec (candidates : List Candidate)
    (active recent : String → ℕ) (rr : String → Option String)
    (hlen : 1 < candidates.length)
    (hnd : (candidates.map fun c => c.account.uuid).Nodup)
    (hnn : ∀ c ∈ candidates, c.account.uuid ≠ "") :
    ∃ sel rr1 i,
      choose_round_robin candidates active recent rr = .ok (sel, rr1) ∧
      i = rr_next_idx (rr_reduce candidates active recent)
            (rr (rr_window_label (rr_reduce candidates active recent))) ∧
      (rr_reduce candidates active recent).get? i = some sel ∧
      (rr (rr_window_label (rr_reduce candidates active recent)) = none →
        i = 0) ∧
      (∀ lu, rr (rr_window_label (rr_reduce candidates active recent)) = some lu →
        lu ≠ "" →
        lu ∈ (rr_reduce candidates active recent).map (fun c => c.account.uuid) →
        i = ((rr_reduce candidates active recent).findIdx
              (fun c => c.account.uuid == lu) + 1) %
            (rr_reduce candidates active recent).length) ∧
      (∀ c ∈ rr_reduce candidates active recent, c ∈ candidates) ∧
      (∀ c ∈ rr_reduce candidates active recent, ∀ d ∈ candidates,
        active c.account.uuid ≤ active d.account.uuid) ∧
      (∀ c ∈ rr_reduce candidates active recent, ∀ d ∈ candidates,
        (∀ e ∈ candidates, active d.account.uuid ≤ active e.account.uuid) →
        recent c.account.uuid ≤ recent d.account.uuid) ∧
      List.Sorted indexLe (rr_reduce candidates active recent) ∧
      rr1 (rr_window_label (rr_reduce candidates active recent)) =
        some sel.account.uuid ∧
      ∃ sel2 rr2,
        choose_round_robin candidates active recent rr1 = .ok (sel2, rr2) ∧
        (rr_reduce candidates active recent).get?
          ((i + 1) % (rr_reduce candidates active recent).length) = some sel2 := by
  have hne : candidates ≠ [] := by
    intro h
    rw [h] at hlen
    simp at hlen
  obtain ⟨hpne, hsorted, hmemc, hact, hrec, p2, hp2sub, hpperm⟩ :=
    rr_reduce_facts candidates active recent hne
  obtain ⟨c0, rest, hcons⟩ := List.exists_cons_of_ne_nil hpne
  have hwin : rr_window_label (rr_reduce candidates active recent) =
      "tier_" ++ toString c0.tier := by
    rw [hcons]
    rfl
  have hi_lt : rr_next_idx (c0 :: rest) (rr ("tier_" ++ toString c0.tier)) <
      (c0 :: rest).length := rr_next_idx_lt _ _ _
  have hgetd : (c0 :: rest).getD
      (rr_next_idx (c0 :: rest) (rr ("tier_" ++ toString c0.tier))) c0 =
      (c0 :: rest).get ⟨_, hi_lt⟩ := by
    rw [List.getD_eq_get?, List.get?_eq_get hi_lt]
    rfl
  have hselmem : (c0 :: rest).getD
      (rr_next_idx (c0 :: rest) (rr ("tier_" ++ toString c0.tier))) c0 ∈
      (c0 :: rest) := by
    rw [hgetd]
    exact List.get_mem _ _ _
  have hpoolnd : ((c0 :: rest).map fun c => c.account.uuid).Nodup := by
    have h1 : (p2.map fun c => c.account.uuid).Nodup :=
      List.Nodup.sublist (List.Sublist.map _ hp2sub) hnd
    have h2 := (hpperm.map fun c => c.account.uuid).nodup_iff.mpr h1
    rwa [hcons] at h2
  refine ⟨(c0 :: rest).getD
      (rr_next_idx (c0 :: rest) (rr ("tier_" ++ toString c0.tier))) c0,
    fun w => if w = "tier_" ++ toString c0.tier then
      some (((c0 :: rest).getD
        (rr_next_idx (c0 :: rest) (rr ("tier_" ++ toString c0.tier)))
        c0).account.uuid)
    else rr w,
    rr_next_idx (c0 :: rest) (rr ("tier_" ++ toString c0.tier)),
    ?_, ?_, ?_, ?_, ?_, hmemc, hact, hrec, hsorted, ?_, ?_⟩
  · rw [choose_round_robin_eq_go candidates active recent rr hlen]
    exact choose_round_robin_go_eval candidates active recent rr c0 rest hcons
  · rw [hcons]
    rfl
  · rw [hcons, List.get?_eq_get hi_lt, hgetd]
  · intro h
    rw [hwin] at h
    rw [h]
    rfl
  · intro lu hlu hlune hlumem
    rw [hwin] at hlu
    rw [hcons] at hlumem ⊢
    rw [hlu]
    exact rr_next_idx_some (c0 :: rest) lu hlune (List.elem_iff.mpr hlumem)
  · rw [hwin]
    simp
  · -- second pass with the advanced cursor
    have hselne : (((c0 :: rest).getD
        (rr_next_idx (c0 :: rest) (rr ("tier_" ++ toString c0.tier)))
        c0).account.uuid) ≠ "" := by
      apply hnn
      apply hmemc
      rw [hcons]
      exact hselmem
    have hselmap : (((c0 :: rest).getD
        (rr_next_idx (c0 :: rest) (rr ("tier_" ++ toString c0.tier)))
        c0).account.uuid) ∈ (c0 :: rest).map fun c => c.account.uuid :=
      List.mem_map.mpr ⟨_, hselmem, rfl⟩
    have hcursor : (fun w => if w = "tier_" ++ toString c0.tier then
        some (((c0 :: rest).getD
          (rr_next_idx (c0 :: rest) (rr ("tier_" ++ toString c0.tier)))
          c0).account.uuid)
        else rr w) ("tier_" ++ toString c0.tier) =
        some (((c0 :: rest).getD
          (rr_next_idx (c0 :: rest) (rr ("tier_" ++ toString c0.tier)))
          c0).account.uuid) := by
      simp
    have hfind : (c0 :: rest).findIdx (fun c => c.account.uuid ==
        ((c0 :: rest).getD
          (rr_next_idx (c0 :: rest) (rr ("tier_" ++ toString c0.tier)))
          c0).account.uuid) =
        rr_next_idx (c0 :: rest) (rr ("tier_" ++ toString c0.tier)) := by
      rw [hgetd]
      exact findIdx_map_nodup (fun c => c.account.uuid) (c0 :: rest) _ hi_lt hpoolnd
    have hidx2 : rr_next_idx (c0 :: rest)
        ((fun w => if w = "tier_" ++ toString c0.tier then
          some (((c0 :: rest).getD
            (rr_next_idx (c0 :: rest) (rr ("tier_" ++ toString c0.tier)))
            c0).account.uuid)
          else rr w) ("tier_" ++ toString c0.tier)) =
        (rr_next_idx (c0 :: rest) (rr ("tier_" ++ toString c0.tier)) + 1) %
          (c0 :: rest).length := by
      rw [hcursor,
        rr_next_idx_some (c0 :: rest) _ hselne (List.elem_iff.mpr hselmap),
        hfind]
    have hi2_lt : (rr_next_idx (c0 :: rest)
        (rr ("tier_" ++ toString c0.tier)) + 1) % (c0 :: rest).length <
        (c0 :: rest).length := Nat.mod_lt _ (Nat.succ_pos rest.length)
    have hrun2 := choose_round_robin_go_eval candidates active recent
      (fun w => if w = "tier_" ++ toString c0.tier then
        some (((c0 :: rest).getD
          (rr_next_idx (c0 :: rest) (rr ("tier_" ++ toString c0.tier)))
          c0).account.uuid)
       else rr w) c0 rest hcons
    rw [hidx2] at hrun2
    rw [← choose_round_robin_eq_go candidates active recent _ hlen] at hrun2
    refine ⟨_, _, hrun2, ?_⟩
    rw [hcons, List.get?_eq_get hi2_lt, List.getD_eq_get?,
      List.get?_eq_get hi2_lt]
    rfl

/-- Witness for `choose_round_robin_spec` on a concrete two-candidate tie
group with equal counters and an empty cursor. -/
theorem choose_round_robin_spec_witness :
    ∃ sel rr1, choose_round_robin [baseCandidate, candB] (fun _ => 0)
        (fun _ => 0) (fun _ => none) = .ok (sel, rr1) ∧
      rr1 (rr_window_label
        (rr_reduce [baseCandidate, candB] (fun _ => 0) (fun _ => 0))) =
        some sel.account.uuid := by
  obtain ⟨sel, rr1, i, h1, _, _, _, _, _, _, _, _, hpersist, _⟩ :=
    choose_round_robin_spec [baseCandidate, candB] (fun _ => 0) (fun _ => 0)
      (fun _ => none) (by decide) (by decide) (by decide)
  exact ⟨sel, rr1, h1, hpersist⟩

end C2Switcher
